import Mathlib

/-!
# Docking-station detector: the scan handler

A shallow embedding of `docking_station_detector.cpp`
(`DockingStationDetector::publishMarker` and
`DockingStationDetector::laserScan_callback`).

* Numbers (`float`/`double` in the source) are elements of a linearly ordered
  field `α`; arithmetic is exact, rounding is not modelled.
* The one float the handler compares, the score `out[3]`, decides the control
  flow, so it is a `FloatValue`: a number or NaN, compared as C++ compares
  floats (every comparison with NaN is false).
* `cos` and `sin` come from the C library and are parameters (`Libm`).
* The estimator `DockingStationFinder::getMostLikelyLocation` is declared in
  `DockingStationFinder.h`, which is not part of the sources; it is a parameter.
* The external services (tf listener, move_base action server) are described
  by a `World`: the outcome of the frame lookup, the answers of successive
  `waitForServer` calls and the goal state read after `waitForResult`.
* The handler returns the list of externally visible actions it performed
  (`Event`) and whether it returned.  The `while` loop around `waitForServer`
  is unbounded in the source; it is run with a fuel that bounds the number of
  simulated iterations, and `finished = false` records that the fuel ran out
  inside the loop.
-/

namespace DockingStation

/-- A `float` that the handler compares: a number, or NaN (not a number). -/
inductive FloatValue (α : Type) where
  | num (v : α)
  | nan
deriving DecidableEq

/-- The C++ comparison `a < b` of two floats: false as soon as one side is NaN. -/
def FloatValue.lt {α : Type} [LT α] [DecidableRel (fun a b : α => a < b)] :
    FloatValue α → FloatValue α → Bool
  | .num a, .num b => decide (a < b)
  | _, _ => false

/-- The C++ comparison `a >= b` of two floats: false as soon as one side is NaN. -/
def FloatValue.ge {α : Type} [LE α] [DecidableRel (fun a b : α => a ≤ b)] :
    FloatValue α → FloatValue α → Bool
  | .num a, .num b => decide (b ≤ a)
  | _, _ => false

/-- Three coordinates, as `tf::Vector3` and `geometry_msgs::Point`/`Vector3`. -/
structure Vector3 (α : Type) where
  x : α
  y : α
  z : α
deriving DecidableEq

/-- Orientation as `geometry_msgs::Quaternion`. -/
structure Quaternion (α : Type) where
  x : α
  y : α
  z : α
  w : α
deriving DecidableEq

/-- Position and orientation, as `geometry_msgs::Pose`. -/
structure Pose (α : Type) where
  position : Vector3 α
  orientation : Quaternion α
deriving DecidableEq

/-- Rigid transform as `tf::Transform`: the rows of the rotation matrix and
the translation. -/
structure Transform (α : Type) where
  row0 : Vector3 α
  row1 : Vector3 α
  row2 : Vector3 α
  origin : Vector3 α
deriving DecidableEq

/-- Dot product of two vectors (`tf::Vector3::dot`). -/
def Vector3.dot {α : Type} [Add α] [Mul α] (a b : Vector3 α) : α :=
  a.x * b.x + a.y * b.y + a.z * b.z

/-- The point `T * p` (`tf::Transform::operator()`): rotate, then translate. -/
def Transform.apply {α : Type} [Add α] [Mul α] (T : Transform α) (p : Vector3 α) : Vector3 α :=
  ⟨T.row0.dot p + T.origin.x, T.row1.dot p + T.origin.y, T.row2.dot p + T.origin.z⟩

/-- Marker shapes of `visualization_msgs::Marker` used here. -/
inductive Shape where
  | ARROW
  | CUBE
  | SPHERE
  | CYLINDER
deriving DecidableEq

/-- Marker actions of `visualization_msgs::Marker`. -/
inductive MarkerAction where
  | ADD
  | DELETE
deriving DecidableEq

/-- Colour as `std_msgs::ColorRGBA`. -/
structure ColorRGBA (α : Type) where
  r : α
  g : α
  b : α
  a : α
deriving DecidableEq

/-- The fields of `visualization_msgs::Marker` that `publishMarker` sets
(the time stamp, read from the clock, is left out). -/
structure Marker (α : Type) where
  frame_id : String
  ns : String
  id : Nat
  type : Shape
  action : MarkerAction
  pose : Pose α
  scale : Vector3 α
  color : ColorRGBA α
  lifetime : α
deriving DecidableEq

/-- The fields of `move_base_msgs::MoveBaseGoal` (`target_pose`); a freshly
constructed message has every number zero. -/
structure MoveBaseGoal (α : Type) where
  frame_id : String
  pose : Pose α
deriving DecidableEq

/-- The fields of `sensor_msgs::LaserScan` read by the handler, with the range
limits that say which samples are valid. -/
structure LaserScan (α : Type) where
  angle_min : α
  angle_max : α
  angle_increment : α
  range_min : α
  range_max : α
  ranges : List α
deriving DecidableEq

/-- The four numbers returned by the estimator:
`out[0]`, `out[1]`, `out[2]`, `out[3]`.  The last one is the float the handler
compares with the threshold, so it may also be NaN. -/
structure Estimate (α : Type) where
  x : α
  y : α
  heading : α
  score : FloatValue α
deriving DecidableEq

/-- The estimator object `dsf_`; its code is not part of the sources. -/
structure DockingStationFinder (α : Type) where
  getMostLikelyLocation : List α → List α → Estimate α

/-- The C library functions used by the handler. -/
structure Libm (α : Type) where
  cos : α → α
  sin : α → α

/-- Values of `actionlib::SimpleClientGoalState`. -/
inductive GoalState where
  | PENDING
  | ACTIVE
  | RECALLED
  | REJECTED
  | PREEMPTED
  | ABORTED
  | SUCCEEDED
  | LOST
deriving DecidableEq

/-- Behaviour of the external services during one call of the handler.
`lookup` is the outcome of the `try` block (`waitForTransform` then
`lookupTransform`): the transform, or the text of the `TransformException`.
`uninit` is what the default-constructed `tf::StampedTransform` holds when
nothing was written into it.  `server k` is the answer of the `k`-th call of
`waitForServer`.  `state` is what `getState` returns after `waitForResult`. -/
structure World (α : Type) where
  lookup : Except String (Transform α)
  uninit : Transform α
  server : Nat → Bool
  state : GoalState

/-- Externally visible actions of the handler, in program order. -/
inductive Event (α : Type) where
  | rosInfo (text : String)
  | rosError (text : String)
  | cout (label : String) (values : List (FloatValue α))
  | getMostLikelyLocation (x_scan y_scan : List α)
  | waitForTransform (target source : String) (timeout : α)
  | publish (marker : Marker α)
  | createActionClient (name : String)
  | waitForServer (timeout : α)
  | sendGoal (goal : MoveBaseGoal α)
  | waitForResult (timeout : α)
deriving DecidableEq

/-- Result of running the handler: what it did, and whether it returned. -/
structure Run (α : Type) where
  trace : List (Event α)
  finished : Bool
deriving DecidableEq

/-- The detector object: the estimator and the acceptance threshold. -/
structure DockingStationDetector (α : Type) where
  dsf_ : DockingStationFinder α
  object_found_threshold_ : FloatValue α

section Handler

variable {α : Type} [LinearOrderedField α]

/-- The constructor: `object_found_threshold_ = 10.f`. -/
def DockingStationDetector.init (dsf : DockingStationFinder α) : DockingStationDetector α :=
  ⟨dsf, .num 10.0⟩

set_option linter.unusedVariables false in
/-- The marker that `publishMarker(x, y, angle, link, add)` publishes. -/
def publishMarker (x y angle : α) (link : String) (add : Bool) : Marker α :=
  let shape := Shape.CUBE
  let action := if !add then MarkerAction.DELETE else MarkerAction.ADD
  let angle := angle - 3.141692
  let x := x - 0.3
  let y := y - 0.476 / 2
  { frame_id := link
    ns := "basic_shapes"
    id := 0
    type := shape
    action := action
    pose := ⟨⟨x, y, 0⟩, ⟨0.0, 0.0, 0.0, 1.0⟩⟩
    scale := ⟨0.1, 0.1, 0.1⟩
    color := ⟨0.0, 1.0, 0.0, 0.70⟩
    lifetime := 0 }

/-- One pass of the body of the conversion loop, at index `i`. -/
def scanStep (m : Libm α) (msg : LaserScan α) (acc : List α × List α) (i : Nat) :
    List α × List α :=
  (acc.1.set i (msg.ranges.getD i 0 * m.cos (msg.angle_min + msg.angle_increment * (i : α))),
   acc.2.set i (msg.ranges.getD i 0 * m.sin (msg.angle_min + msg.angle_increment * (i : α))))

/-- The arrays `x_scan`, `y_scan`: both resized to the number of samples
(filled with zeros), then written at `i = 0, 1, ..., n - 1`. -/
def scanToCartesian (m : Libm α) (msg : LaserScan α) : List α × List α :=
  (List.range msg.ranges.length).foldl (scanStep m msg)
    (List.replicate msg.ranges.length 0, List.replicate msg.ranges.length 0)

/-- The loop `while(!ac.waitForServer(ros::Duration(1.0))) ROS_INFO(...)`,
from the `k`-th call on, for at most `fuel` calls.  Returns the actions taken
and whether the loop was left. -/
def waitLoop (server : Nat → Bool) : Nat → Nat → List (Event α) × Bool
  | 0, _ => ([], false)
  | fuel + 1, k =>
    if server k then ([Event.waitForServer 1.0], true)
    else
      let rest := waitLoop server fuel (k + 1)
      (Event.waitForServer 1.0
        :: Event.rosInfo "Waiting for the move_base action server to come up"
        :: rest.1, rest.2)

/-- The handler `laserScan_callback(msg)`, statement by statement.  The text
of a thrown `TransformException` is logged and execution continues after the
`catch`; `transform` is then the object nothing was written into.  `fuel`
bounds the number of `waitForServer` calls that are simulated; the result has
`finished = false` when they were all answered negatively. -/
def laserScan_callback (m : Libm α) (self : DockingStationDetector α) (w : World α)
    (fuel : Nat) (msg : LaserScan α) : Run α :=
  let scan := scanToCartesian m msg
  let x_scan := scan.1
  let y_scan := scan.2
  let out := self.dsf_.getMostLikelyLocation x_scan y_scan
  let goal_x_laser := out.x
  let goal_y_laser := out.y
  let tf : Transform α × List (Event α) :=
    match w.lookup with
    | .ok t => (t, [])
    | .error what => (w.uninit, [Event.rosError what])
  let transform := tf.1
  let origin := transform.origin
  let goal_laser : Vector3 α := ⟨goal_x_laser, goal_y_laser, 0⟩
  let goal_x_base := goal_laser.x + origin.x
  let goal_y_base := goal_laser.y
  let before : List (Event α) :=
    [Event.rosInfo "Laser scan received... %d",
     Event.getMostLikelyLocation x_scan y_scan,
     Event.cout "best score:" [.num out.x, .num out.y, .num out.heading, out.score],
     Event.waitForTransform "/base_link" "/base_laser_link" 10.0]
    ++ tf.2 ++
    [Event.cout " - " [.num origin.x, .num origin.y],
     Event.publish (publishMarker goal_x_base goal_y_base out.heading "/base_link" true)]
  if out.score.lt self.object_found_threshold_ then
    ⟨before, true⟩
  else
    let waiting := waitLoop w.server fuel 0
    if !waiting.2 then
      ⟨before ++ [Event.createActionClient "move_base"] ++ waiting.1, false⟩
    else
      let goal : MoveBaseGoal α :=
        { frame_id := "/base_link"
          pose := ⟨⟨goal_x_base, goal_y_base, 0⟩, ⟨0, 0, 0, 1.0⟩⟩ }
      ⟨before ++ [Event.createActionClient "move_base"] ++ waiting.1 ++
        [Event.sendGoal goal,
         Event.waitForResult 100.0,
         if w.state = GoalState.SUCCEEDED then
           Event.rosInfo "Hooray, the base moved to the goal"
         else
           Event.rosInfo "The base failed to move to the goal"], true⟩

/-- The estimator's output for this scan: the value of `out` in the handler. -/
def estimatorOutput (m : Libm α) (self : DockingStationDetector α) (msg : LaserScan α) :
    Estimate α :=
  self.dsf_.getMostLikelyLocation (scanToCartesian m msg).1 (scanToCartesian m msg).2

/-- The outcome of the test `out[3] < object_found_threshold_`: when it is
true the handler returns without navigating. -/
def belowThreshold (m : Libm α) (self : DockingStationDetector α) (msg : LaserScan α) :
    Bool :=
  (estimatorOutput m self msg).score.lt self.object_found_threshold_

/-- The transform object the handler reads after the `try` block: the result
of the lookup, or the untouched default-constructed object when it threw. -/
def transformRead (w : World α) : Transform α :=
  match w.lookup with
  | .ok t => t
  | .error _ => w.uninit

/-- The navigation goals submitted in a trace, in order. -/
def goalsSent (t : List (Event α)) : List (MoveBaseGoal α) :=
  t.filterMap fun e =>
    match e with
    | .sendGoal g => some g
    | _ => none

/-- The markers published in a trace, in order. -/
def markersPublished (t : List (Event α)) : List (Marker α) :=
  t.filterMap fun e =>
    match e with
    | .publish mk => some mk
    | _ => none

/-- The pairs of arrays handed to the estimator in a trace, in order. -/
def estimatorCalls (t : List (Event α)) : List (List α × List α) :=
  t.filterMap fun e =>
    match e with
    | .getMostLikelyLocation xs ys => some (xs, ys)
    | _ => none

/-- The errors logged in a trace, in order. -/
def errorsLogged (t : List (Event α)) : List String :=
  t.filterMap fun e =>
    match e with
    | .rosError s => some s
    | _ => none

/-- Navigation actions: everything done with the move_base action client. -/
def Event.isNavigation : Event α → Bool
  | .createActionClient _ => true
  | .waitForServer _ => true
  | .sendGoal _ => true
  | .waitForResult _ => true
  | _ => false

/-- The bound of a blocking wait, when the action is one. -/
def Event.waitBound : Event α → Option α
  | .waitForTransform _ _ d => some d
  | .waitForServer d => some d
  | .waitForResult d => some d
  | _ => none

/-- The index of the first `waitForServer` call answered with `true` is below `n`. -/
def serverUpWithin (server : Nat → Bool) (n : Nat) : Prop :=
  ∃ k, k < n ∧ server k = true

instance (server : Nat → Bool) (n : Nat) : Decidable (serverUpWithin server n) := by
  unfold serverUpWithin
  infer_instance

/-- What the handler does up to the threshold test, in program order. -/
def preamble (m : Libm α) (self : DockingStationDetector α) (w : World α)
    (msg : LaserScan α) : List (Event α) :=
  [Event.rosInfo "Laser scan received... %d",
   Event.getMostLikelyLocation (scanToCartesian m msg).1 (scanToCartesian m msg).2,
   Event.cout "best score:"
     [.num (estimatorOutput m self msg).x, .num (estimatorOutput m self msg).y,
      .num (estimatorOutput m self msg).heading, (estimatorOutput m self msg).score],
   Event.waitForTransform "/base_link" "/base_laser_link" 10]
  ++ (match w.lookup with
      | .ok _ => []
      | .error what => [Event.rosError what])
  ++ [Event.cout " - " [.num (transformRead w).origin.x, .num (transformRead w).origin.y],
      Event.publish (publishMarker
        ((estimatorOutput m self msg).x + (transformRead w).origin.x)
        (estimatorOutput m self msg).y (estimatorOutput m self msg).heading "/base_link" true)]

/-- The value of `goal` when `sendGoal` is called. -/
def goalSubmitted (m : Libm α) (self : DockingStationDetector α) (w : World α)
    (msg : LaserScan α) : MoveBaseGoal α :=
  { frame_id := "/base_link"
    pose := ⟨⟨(estimatorOutput m self msg).x + (transformRead w).origin.x,
              (estimatorOutput m self msg).y, 0⟩, ⟨0, 0, 0, 1⟩⟩ }

/-- The text logged after `waitForResult`. -/
def resultText (w : World α) : String :=
  if w.state = GoalState.SUCCEEDED then "Hooray, the base moved to the goal"
  else "The base failed to move to the goal"

/-- An estimator that returns the same four numbers for every scan. -/
def constantFinder (out : Estimate α) : DockingStationFinder α :=
  ⟨fun _ _ => out⟩

/-- The transform with the identity rotation and translation `t`. -/
def Transform.translation (t : Vector3 α) : Transform α :=
  ⟨⟨1, 0, 0⟩, ⟨0, 1, 0⟩, ⟨0, 0, 1⟩, t⟩

/-- The transform that turns by a quarter turn about the z axis and does not
translate. -/
def Transform.quarterTurn : Transform α :=
  ⟨⟨0, -1, 0⟩, ⟨1, 0, 0⟩, ⟨0, 0, 1⟩, ⟨0, 0, 0⟩⟩

/-- A world in which the lookup yields `T`, the action server answers the
first `waitForServer`, and the goal ends in state `s`. -/
def World.ready (T : Transform α) (s : GoalState) : World α :=
  ⟨.ok T, T, fun _ => true, s⟩

/-- A world in which the lookup yields `T` and the action server never
becomes available. -/
def World.serverDown (T : Transform α) : World α :=
  ⟨.ok T, T, fun _ => false, GoalState.PENDING⟩

/-- A world in which the lookup throws with text `what`, the untouched
transform object holds `garbage`, and the action server answers at once. -/
def World.lookupFails (what : String) (garbage : Transform α) (s : GoalState) : World α :=
  ⟨.error what, garbage, fun _ => true, s⟩

/-- A scan of the given samples, all taken at angle 0, with valid ranges
between 0.1 and 10. -/
def scanAtZero (ranges : List α) : LaserScan α :=
  ⟨0, 0, 0, 0.1, 10, ranges⟩

end Handler

/-! ## Auxiliary facts -/

section Facts

variable {α : Type} [LinearOrderedField α]

set_option linter.unusedSectionVars false

theorem sci_one : (1.0 : α) = 1 := by norm_num

theorem sci_ten : (10.0 : α) = 10 := by norm_num

theorem sci_hundred : (100.0 : α) = 100 := by norm_num

theorem getD_set_zero (l : List α) (k i : Nat) (v : α) (hk : k < l.length) :
    (l.set k v).getD i 0 = if i = k then v else l.getD i 0 := by
  simp only [List.getD_eq_getElem?_getD, List.getElem?_set]
  by_cases h : k = i
  · subst h; simp [hk]
  · have h2 : ¬ i = k := fun e => h e.symm
    simp [h, h2]

/-- Loop invariant of the conversion loop after `k` passes. -/
theorem scan_fold (m : Libm α) (msg : LaserScan α) (k : Nat) (hk : k ≤ msg.ranges.length) :
    let acc := (List.range k).foldl (scanStep m msg)
      (List.replicate msg.ranges.length 0, List.replicate msg.ranges.length 0)
    acc.1.length = msg.ranges.length ∧ acc.2.length = msg.ranges.length ∧
    (∀ i, acc.1.getD i 0 = if i < k then
        msg.ranges.getD i 0 * m.cos (msg.angle_min + msg.angle_increment * (i : α)) else 0) ∧
    (∀ i, acc.2.getD i 0 = if i < k then
        msg.ranges.getD i 0 * m.sin (msg.angle_min + msg.angle_increment * (i : α)) else 0) := by
  induction k with
  | zero =>
    simp [List.getD_eq_getElem?_getD, List.getElem?_replicate]
    intro i; split <;> simp
  | succ k ih =>
    have ih2 := ih (Nat.le_of_succ_le hk)
    simp only [List.range_succ, List.foldl_append, List.foldl_cons, List.foldl_nil] at ih2 ⊢
    obtain ⟨h1, h2, h3, h4⟩ := ih2
    refine ⟨?_, ?_, ?_, ?_⟩
    · simp [scanStep, h1]
    · simp [scanStep, h2]
    · intro i
      simp only [scanStep]
      rw [getD_set_zero _ _ _ _ (by omega), h3]
      by_cases e : i = k
      · subst e; simp
      · have : (i < k + 1) = (i < k) := by
          apply propext; omega
        simp [e, this]
    · intro i
      simp only [scanStep]
      rw [getD_set_zero _ _ _ _ (by omega), h4]
      by_cases e : i = k
      · subst e; simp
      · have : (i < k + 1) = (i < k) := by
          apply propext; omega
        simp [e, this]

theorem scan_length_fst (m : Libm α) (msg : LaserScan α) :
    (scanToCartesian m msg).1.length = msg.ranges.length :=
  (scan_fold m msg msg.ranges.length (Nat.le_refl _)).1

theorem scan_length_snd (m : Libm α) (msg : LaserScan α) :
    (scanToCartesian m msg).2.length = msg.ranges.length :=
  (scan_fold m msg msg.ranges.length (Nat.le_refl _)).2.1

theorem scan_get_fst (m : Libm α) (msg : LaserScan α) (i : Nat) :
    (scanToCartesian m msg).1[i]? = msg.ranges[i]?.map
      (fun r => r * m.cos (msg.angle_min + msg.angle_increment * (i : α))) := by
  have hl := scan_length_fst m msg
  have hg := (scan_fold m msg msg.ranges.length (Nat.le_refl _)).2.2.1 i
  change (scanToCartesian m msg).1.getD i 0 = _ at hg
  by_cases hi : i < msg.ranges.length
  · have hi2 : i < (scanToCartesian m msg).1.length := by omega
    simp only [List.getD_eq_getElem?_getD, List.getElem?_eq_getElem hi,
      List.getElem?_eq_getElem hi2, Option.getD_some, if_pos hi] at hg
    simp [List.getElem?_eq_getElem hi, List.getElem?_eq_getElem hi2, hg]
  · have hi2 : ¬ i < (scanToCartesian m msg).1.length := by omega
    simp [List.getElem?_eq_none (Nat.le_of_not_lt hi), List.getElem?_eq_none (Nat.le_of_not_lt hi2)]

theorem scan_get_snd (m : Libm α) (msg : LaserScan α) (i : Nat) :
    (scanToCartesian m msg).2[i]? = msg.ranges[i]?.map
      (fun r => r * m.sin (msg.angle_min + msg.angle_increment * (i : α))) := by
  have hl := scan_length_snd m msg
  have hg := (scan_fold m msg msg.ranges.length (Nat.le_refl _)).2.2.2 i
  change (scanToCartesian m msg).2.getD i 0 = _ at hg
  by_cases hi : i < msg.ranges.length
  · have hi2 : i < (scanToCartesian m msg).2.length := by omega
    simp only [List.getD_eq_getElem?_getD, List.getElem?_eq_getElem hi,
      List.getElem?_eq_getElem hi2, Option.getD_some, if_pos hi] at hg
    simp [List.getElem?_eq_getElem hi, List.getElem?_eq_getElem hi2, hg]
  · have hi2 : ¬ i < (scanToCartesian m msg).2.length := by omega
    simp [List.getElem?_eq_none (Nat.le_of_not_lt hi), List.getElem?_eq_none (Nat.le_of_not_lt hi2)]

theorem waitLoop_up_iff (server : Nat → Bool) (fuel k : Nat) :
    (waitLoop (α := α) server fuel k).2 = true ↔ ∃ j, j < fuel ∧ server (k + j) = true := by
  induction fuel generalizing k with
  | zero => simp [waitLoop]
  | succ n ih =>
    unfold waitLoop
    by_cases h : server k = true
    · simp only [h, if_true]
      exact ⟨fun _ => ⟨0, by omega, by simpa using h⟩, fun _ => trivial⟩
    · simp only [h, if_false, Bool.false_eq_true]
      rw [ih (k + 1)]
      constructor
      · rintro ⟨j, hj, hs⟩
        exact ⟨j + 1, by omega, by rw [← hs]; congr 1; omega⟩
      · rintro ⟨j, hj, hs⟩
        cases j with
        | zero => exact absurd hs h
        | succ j => exact ⟨j, by omega, by rw [← hs]; congr 1; omega⟩

theorem waitLoop_up (server : Nat → Bool) (fuel : Nat) :
    (waitLoop (α := α) server fuel 0).2 = true ↔ serverUpWithin server fuel := by
  rw [waitLoop_up_iff]
  simp [serverUpWithin]

theorem waitLoop_mem (server : Nat → Bool) (fuel k : Nat) (e : Event α)
    (he : e ∈ (waitLoop (α := α) server fuel k).1) :
    e = Event.waitForServer 1 ∨
      e = Event.rosInfo "Waiting for the move_base action server to come up" := by
  induction fuel generalizing k with
  | zero => simp [waitLoop] at he
  | succ n ih =>
    unfold waitLoop at he
    by_cases h : server k = true
    · simp only [h, if_true, List.mem_singleton, sci_one] at he
      exact Or.inl he
    · simp only [h, if_false, Bool.false_eq_true, List.mem_cons, sci_one] at he
      rcases he with he | he | he
      · exact Or.inl he
      · exact Or.inr he
      · exact ih _ he

theorem waitLoop_length (server : Nat → Bool) (fuel k : Nat) :
    ((waitLoop (α := α) server fuel k).1.filterMap Event.waitBound).length ≤ fuel := by
  induction fuel generalizing k with
  | zero => simp [waitLoop]
  | succ n ih =>
    unfold waitLoop
    by_cases h : server k = true
    · simp [h, Event.waitBound]
    · simp only [h, if_false, Bool.false_eq_true]
      have := ih (k + 1)
      simp [Event.waitBound, List.filterMap_cons]
      omega

theorem goalsSent_append (a b : List (Event α)) :
    goalsSent (a ++ b) = goalsSent a ++ goalsSent b := by
  simp [goalsSent, List.filterMap_append]

theorem markersPublished_append (a b : List (Event α)) :
    markersPublished (a ++ b) = markersPublished a ++ markersPublished b := by
  simp [markersPublished, List.filterMap_append]

theorem estimatorCalls_append (a b : List (Event α)) :
    estimatorCalls (a ++ b) = estimatorCalls a ++ estimatorCalls b := by
  simp [estimatorCalls, List.filterMap_append]

theorem errorsLogged_append (a b : List (Event α)) :
    errorsLogged (a ++ b) = errorsLogged a ++ errorsLogged b := by
  simp [errorsLogged, List.filterMap_append]

theorem goalsSent_cons (e : Event α) (t : List (Event α)) :
    goalsSent (e :: t) = goalsSent [e] ++ goalsSent t := by
  rw [← goalsSent_append]; rfl

theorem markersPublished_cons (e : Event α) (t : List (Event α)) :
    markersPublished (e :: t) = markersPublished [e] ++ markersPublished t := by
  rw [← markersPublished_append]; rfl

theorem estimatorCalls_cons (e : Event α) (t : List (Event α)) :
    estimatorCalls (e :: t) = estimatorCalls [e] ++ estimatorCalls t := by
  rw [← estimatorCalls_append]; rfl

theorem errorsLogged_cons (e : Event α) (t : List (Event α)) :
    errorsLogged (e :: t) = errorsLogged [e] ++ errorsLogged t := by
  rw [← errorsLogged_append]; rfl

theorem waitLoop_goals (server : Nat → Bool) (fuel k : Nat) :
    goalsSent (waitLoop (α := α) server fuel k).1 = [] := by
  rw [goalsSent, List.filterMap_eq_nil_iff]
  intro e he
  rcases waitLoop_mem server fuel k e he with h | h <;> subst h <;> rfl

theorem waitLoop_markers (server : Nat → Bool) (fuel k : Nat) :
    markersPublished (waitLoop (α := α) server fuel k).1 = [] := by
  rw [markersPublished, List.filterMap_eq_nil_iff]
  intro e he
  rcases waitLoop_mem server fuel k e he with h | h <;> subst h <;> rfl

theorem waitLoop_calls (server : Nat → Bool) (fuel k : Nat) :
    estimatorCalls (waitLoop (α := α) server fuel k).1 = [] := by
  rw [estimatorCalls, List.filterMap_eq_nil_iff]
  intro e he
  rcases waitLoop_mem server fuel k e he with h | h <;> subst h <;> rfl

theorem waitLoop_errors (server : Nat → Bool) (fuel k : Nat) :
    errorsLogged (waitLoop (α := α) server fuel k).1 = [] := by
  rw [errorsLogged, List.filterMap_eq_nil_iff]
  intro e he
  rcases waitLoop_mem server fuel k e he with h | h <;> subst h <;> rfl

theorem preamble_goals (m : Libm α) (self : DockingStationDetector α) (w : World α)
    (msg : LaserScan α) : goalsSent (preamble m self w msg) = [] := by
  unfold preamble
  cases w.lookup <;> simp [goalsSent]

theorem preamble_markers (m : Libm α) (self : DockingStationDetector α) (w : World α)
    (msg : LaserScan α) :
    markersPublished (preamble m self w msg) =
      [publishMarker ((estimatorOutput m self msg).x + (transformRead w).origin.x)
        (estimatorOutput m self msg).y (estimatorOutput m self msg).heading "/base_link" true] := by
  unfold preamble
  cases w.lookup <;> simp [markersPublished]

theorem preamble_calls (m : Libm α) (self : DockingStationDetector α) (w : World α)
    (msg : LaserScan α) :
    estimatorCalls (preamble m self w msg) = [scanToCartesian m msg] := by
  unfold preamble
  cases w.lookup <;> simp [estimatorCalls]

theorem preamble_navigation (m : Libm α) (self : DockingStationDetector α) (w : World α)
    (msg : LaserScan α) : (preamble m self w msg).filter Event.isNavigation = [] := by
  unfold preamble
  cases w.lookup <;> simp [Event.isNavigation]

theorem preamble_waits (m : Libm α) (self : DockingStationDetector α) (w : World α)
    (msg : LaserScan α) :
    (preamble m self w msg).filterMap Event.waitBound = [10] := by
  unfold preamble
  cases w.lookup <;> simp [Event.waitBound]

theorem lt_num_num (a b : α) : (FloatValue.num a).lt (FloatValue.num b) = true ↔ a < b := by
  simp [FloatValue.lt]

theorem lt_nan_left (b : FloatValue α) : (FloatValue.nan : FloatValue α).lt b = false := by
  cases b <;> rfl

theorem ge_num_num (a b : α) : (FloatValue.num a).ge (FloatValue.num b) = true ↔ b ≤ a := by
  simp [FloatValue.ge]

theorem callback_eq (m : Libm α) (self : DockingStationDetector α) (w : World α)
    (fuel : Nat) (msg : LaserScan α) :
    laserScan_callback m self w fuel msg =
      if belowThreshold m self msg = true then
        ⟨preamble m self w msg, true⟩
      else if (waitLoop (α := α) w.server fuel 0).2 = true then
        ⟨preamble m self w msg ++ Event.createActionClient "move_base"
            :: (waitLoop w.server fuel 0).1 ++
            [Event.sendGoal (goalSubmitted m self w msg), Event.waitForResult 100,
             Event.rosInfo (resultText w)], true⟩
      else
        ⟨preamble m self w msg ++ Event.createActionClient "move_base"
            :: (waitLoop w.server fuel 0).1, false⟩ := by
  simp only [laserScan_callback, belowThreshold, estimatorOutput, transformRead, preamble,
    goalSubmitted, resultText, sci_one, sci_ten, sci_hundred]
  cases hl : w.lookup <;> dsimp only <;> split <;> try split
  all_goals simp_all
  all_goals split <;> rfl

theorem callback_goals (m : Libm α) (self : DockingStationDetector α) (w : World α)
    (fuel : Nat) (msg : LaserScan α) :
    goalsSent (laserScan_callback m self w fuel msg).trace =
      if belowThreshold m self msg = false ∧ serverUpWithin w.server fuel then
        [goalSubmitted m self w msg] else [] := by
  rw [callback_eq]
  by_cases hs : belowThreshold m self msg = true
  · simp [hs, preamble_goals]
  · have hs2 : belowThreshold m self msg = false := by simpa using hs
    by_cases hu : serverUpWithin w.server fuel
    · have hu2 := (waitLoop_up (α := α) w.server fuel).mpr hu
      simp only [hs2, hu, hu2, Bool.false_eq_true, if_false, if_true, and_self]
      rw [goalsSent_append, goalsSent_append, preamble_goals,
        goalsSent_cons _ (waitLoop w.server fuel 0).1, waitLoop_goals]
      simp [goalsSent]
    · have hu2 : ¬ (waitLoop (α := α) w.server fuel 0).2 = true :=
        fun h => hu ((waitLoop_up (α := α) w.server fuel).mp h)
      simp only [hs2, hu, hu2, Bool.false_eq_true, if_false, and_false]
      rw [goalsSent_append, preamble_goals,
        goalsSent_cons _ (waitLoop w.server fuel 0).1, waitLoop_goals]
      simp [goalsSent]

theorem callback_markers (m : Libm α) (self : DockingStationDetector α) (w : World α)
    (fuel : Nat) (msg : LaserScan α) :
    markersPublished (laserScan_callback m self w fuel msg).trace =
      [publishMarker ((estimatorOutput m self msg).x + (transformRead w).origin.x)
        (estimatorOutput m self msg).y (estimatorOutput m self msg).heading "/base_link" true] := by
  rw [callback_eq]
  split
  · exact preamble_markers m self w msg
  · split
    · rw [markersPublished_append, markersPublished_append, preamble_markers,
        markersPublished_cons _ (waitLoop w.server fuel 0).1, waitLoop_markers]
      simp [markersPublished]
    · rw [markersPublished_append, preamble_markers,
        markersPublished_cons _ (waitLoop w.server fuel 0).1, waitLoop_markers]
      simp [markersPublished]

theorem callback_calls (m : Libm α) (self : DockingStationDetector α) (w : World α)
    (fuel : Nat) (msg : LaserScan α) :
    estimatorCalls (laserScan_callback m self w fuel msg).trace = [scanToCartesian m msg] := by
  rw [callback_eq]
  split
  · exact preamble_calls m self w msg
  · split
    · rw [estimatorCalls_append, estimatorCalls_append, preamble_calls,
        estimatorCalls_cons _ (waitLoop w.server fuel 0).1, waitLoop_calls]
      simp [estimatorCalls]
    · rw [estimatorCalls_append, preamble_calls,
        estimatorCalls_cons _ (waitLoop w.server fuel 0).1, waitLoop_calls]
      simp [estimatorCalls]

theorem callback_finished (m : Libm α) (self : DockingStationDetector α) (w : World α)
    (fuel : Nat) (msg : LaserScan α) :
    (laserScan_callback m self w fuel msg).finished = true ↔
      belowThreshold m self msg = true ∨ serverUpWithin w.server fuel := by
  rw [callback_eq, ← waitLoop_up (α := α) w.server fuel]
  by_cases hs : belowThreshold m self msg = true
  · simp [hs]
  · by_cases hu : (waitLoop (α := α) w.server fuel 0).2 = true
    · simp [hs, hu]
    · simp [hs, hu]

theorem callback_client (m : Libm α) (self : DockingStationDetector α) (w : World α)
    (fuel : Nat) (msg : LaserScan α) :
    Event.createActionClient "move_base" ∈ (laserScan_callback m self w fuel msg).trace ↔
      belowThreshold m self msg = false := by
  rw [callback_eq]
  by_cases hs : belowThreshold m self msg = true
  · simp only [hs, if_true, Bool.true_eq_false, iff_false]
    intro hmem
    have := preamble_navigation m self w msg
    rw [List.filter_eq_nil_iff] at this
    exact this _ hmem rfl
  · have hs2 : belowThreshold m self msg = false := by simpa using hs
    simp only [hs2, Bool.false_eq_true, if_false, iff_true]
    split <;> simp

theorem callback_navigation (m : Libm α) (self : DockingStationDetector α) (w : World α)
    (fuel : Nat) (msg : LaserScan α) :
    (laserScan_callback m self w fuel msg).trace.filter Event.isNavigation = [] ↔
      belowThreshold m self msg = true := by
  constructor
  · intro h
    by_contra hs
    have hs2 : belowThreshold m self msg = false := by simpa using hs
    rw [List.filter_eq_nil_iff] at h
    exact h _ ((callback_client m self w fuel msg).mpr hs2) rfl
  · intro hs
    rw [callback_eq, if_pos hs]
    exact preamble_navigation m self w msg

theorem init_threshold (dsf : DockingStationFinder α) :
    (DockingStationDetector.init dsf).object_found_threshold_ = FloatValue.num 10 := by
  simp [DockingStationDetector.init, sci_ten]

/-- With the constructor's threshold and a score that is a number, the test
`out[3] < object_found_threshold_` is the comparison with 10. -/
theorem belowThreshold_num (m : Libm α) (dsf : DockingStationFinder α) (msg : LaserScan α)
    (s : α) (hs : (estimatorOutput m (DockingStationDetector.init dsf) msg).score = .num s) :
    belowThreshold m (DockingStationDetector.init dsf) msg = true ↔ s < 10 := by
  rw [belowThreshold, hs, init_threshold, lt_num_num]

theorem belowThreshold_num_false (m : Libm α) (dsf : DockingStationFinder α)
    (msg : LaserScan α) (s : α)
    (hs : (estimatorOutput m (DockingStationDetector.init dsf) msg).score = .num s) :
    belowThreshold m (DockingStationDetector.init dsf) msg = false ↔ 10 ≤ s := by
  rw [← not_lt, ← belowThreshold_num m dsf msg s hs]
  simp

/-- With a score that is NaN the test is false, whatever the threshold. -/
theorem belowThreshold_nan (m : Libm α) (self : DockingStationDetector α) (msg : LaserScan α)
    (hs : (estimatorOutput m self msg).score = .nan) :
    belowThreshold m self msg = false := by
  rw [belowThreshold, hs, lt_nan_left]

theorem preamble_info (m : Libm α) (self : DockingStationDetector α) (w : World α)
    (msg : LaserScan α) (s : String) (hs : Event.rosInfo s ∈ preamble m self w msg) :
    s = "Laser scan received... %d" := by
  unfold preamble at hs
  cases hl : w.lookup <;> simp [hl] at hs <;> exact hs

theorem waitLoop_info (server : Nat → Bool) (fuel k : Nat) (s : String)
    (hs : Event.rosInfo s ∈ (waitLoop (α := α) server fuel k).1) :
    s = "Waiting for the move_base action server to come up" := by
  rcases waitLoop_mem server fuel k _ hs with h | h
  · cases h
  · injection h

theorem resultText_hooray (w : World α) :
    resultText w = "Hooray, the base moved to the goal" ↔ w.state = GoalState.SUCCEEDED := by
  unfold resultText
  split <;> simp_all

theorem resultText_failed (w : World α) :
    resultText w = "The base failed to move to the goal" ↔ w.state ≠ GoalState.SUCCEEDED := by
  unfold resultText
  split <;> simp_all

/-- The result text is logged exactly when a goal was submitted. -/
theorem callback_result (m : Libm α) (self : DockingStationDetector α) (w : World α)
    (fuel : Nat) (msg : LaserScan α) (s : String)
    (h1 : s ≠ "Laser scan received... %d")
    (h2 : s ≠ "Waiting for the move_base action server to come up") :
    Event.rosInfo s ∈ (laserScan_callback m self w fuel msg).trace ↔
      (belowThreshold m self msg = false ∧ serverUpWithin w.server fuel) ∧
        s = resultText w := by
  have hp : ¬ Event.rosInfo s ∈ preamble m self w msg :=
    fun h => h1 (preamble_info m self w msg s h)
  have hw : ¬ Event.rosInfo s ∈ (waitLoop (α := α) w.server fuel 0).1 :=
    fun h => h2 (waitLoop_info w.server fuel 0 s h)
  rw [callback_eq, ← waitLoop_up (α := α) w.server fuel]
  by_cases hs : belowThreshold m self msg = true
  · simp [hs, hp]
  · have hs2 : belowThreshold m self msg = false := by simpa using hs
    by_cases hu : (waitLoop (α := α) w.server fuel 0).2 = true
    · simp [hs2, hu, hp, hw]
    · simp [hs2, hu, hp, hw]

theorem transformRead_ok (w : World α) (T : Transform α) (h : w.lookup = .ok T) :
    transformRead w = T := by
  simp [transformRead, h]

theorem publishMarker_pose (x y angle : α) (link : String) (add : Bool) :
    (publishMarker x y angle link add).pose =
      ⟨⟨x - 0.3, y - 0.476 / 2, 0⟩, ⟨0, 0, 0, 1⟩⟩ := by
  simp [publishMarker, sci_one]
  norm_num

/-- Where each kind of wait occurs in a trace and with which bound. -/
theorem callback_wait_events (m : Libm α) (self : DockingStationDetector α) (w : World α)
    (fuel : Nat) (msg : LaserScan α) (e : Event α)
    (he : e ∈ (laserScan_callback m self w fuel msg).trace) :
    (∀ a b d, e = Event.waitForTransform a b d →
      a = "/base_link" ∧ b = "/base_laser_link" ∧ d = 10) ∧
    (∀ d, e = Event.waitForServer d → d = 1) ∧
    (∀ d, e = Event.waitForResult d → d = 100) := by
  have hpre : e ∈ preamble m self w msg →
      (∀ a b d, e = Event.waitForTransform a b d →
        a = "/base_link" ∧ b = "/base_laser_link" ∧ d = 10) ∧
      (∀ d, e = Event.waitForServer d → d = 1) ∧
      (∀ d, e = Event.waitForResult d → d = 100) := by
    intro hp
    unfold preamble at hp
    cases hl : w.lookup <;> simp only [hl, List.mem_append, List.mem_cons,
        List.mem_singleton, List.not_mem_nil, or_false, List.append_nil] at hp
    · rcases hp with ((h | h | h | h) | h) | h | h <;> rw [h] <;> simp
    · rcases hp with (h | h | h | h) | h | h <;> rw [h] <;> simp
  have hloop : e ∈ (waitLoop (α := α) w.server fuel 0).1 →
      (∀ a b d, e = Event.waitForTransform a b d →
        a = "/base_link" ∧ b = "/base_laser_link" ∧ d = 10) ∧
      (∀ d, e = Event.waitForServer d → d = 1) ∧
      (∀ d, e = Event.waitForResult d → d = 100) := by
    intro hp
    rcases waitLoop_mem w.server fuel 0 e hp with h | h <;> subst h <;> simp
  rw [callback_eq] at he
  split at he
  · exact hpre he
  · split at he
    · simp only [List.mem_append, List.mem_cons, List.mem_singleton, List.not_mem_nil,
        or_false] at he
      rcases he with (he | he | he) | he | he | he
      · exact hpre he
      · subst he; simp
      · exact hloop he
      · subst he; simp
      · subst he; simp
      · subst he; simp
    · simp only [List.mem_append, List.mem_cons] at he
      rcases he with he | he | he
      · exact hpre he
      · subst he; simp
      · exact hloop he

theorem waitLoop_first (server : Nat → Bool) (fuel k : Nat) :
    Event.waitForServer 1 ∈ (waitLoop (α := α) server (fuel + 1) k).1 := by
  unfold waitLoop
  split <;> simp [sci_one]

theorem preamble_transform_wait (m : Libm α) (self : DockingStationDetector α) (w : World α)
    (msg : LaserScan α) :
    Event.waitForTransform "/base_link" "/base_laser_link" 10 ∈ preamble m self w msg := by
  unfold preamble
  simp

theorem callback_preamble_subset (m : Libm α) (self : DockingStationDetector α) (w : World α)
    (fuel : Nat) (msg : LaserScan α) (e : Event α) (he : e ∈ preamble m self w msg) :
    e ∈ (laserScan_callback m self w fuel msg).trace := by
  rw [callback_eq]
  split
  · exact he
  · split <;> simp [he]

theorem callback_loop_subset (m : Libm α) (self : DockingStationDetector α) (w : World α)
    (fuel : Nat) (msg : LaserScan α) (e : Event α)
    (hb : belowThreshold m self msg = false)
    (he : e ∈ (waitLoop (α := α) w.server fuel 0).1) :
    e ∈ (laserScan_callback m self w fuel msg).trace := by
  rw [callback_eq, if_neg (by simp [hb])]
  split <;> simp [he]

/-- The score test for an estimator that returns `out` for every scan. -/
theorem belowThreshold_constant (m : Libm α) (out : Estimate α) (msg : LaserScan α) :
    belowThreshold m (DockingStationDetector.init (constantFinder out)) msg =
      out.score.lt (.num 10) := by
  simp [belowThreshold, estimatorOutput, constantFinder, DockingStationDetector.init, sci_ten]

end Facts

/-! ## The claims -/

section Claims

variable {α : Type} [LinearOrderedField α]

/-- C1 (for scores that are numbers): with the threshold set by the
constructor and an estimator score that is a number `s`, the handler builds
the action client exactly when `s` is at least 10, submits the goal exactly
when moreover the server comes up, and takes no navigation action exactly when
`s` is below 10; a score of exactly 10 is accepted and a score of 0 is
rejected. -/
theorem acceptance_decision (m : Libm α) (dsf : DockingStationFinder α) (w : World α)
    (fuel : Nat) (msg : LaserScan α) (s : α)
    (hs : (estimatorOutput m (DockingStationDetector.init dsf) msg).score = .num s) :
    (Event.createActionClient "move_base" ∈
        (laserScan_callback m (DockingStationDetector.init dsf) w fuel msg).trace ↔
      10 ≤ s) ∧
    (goalsSent (laserScan_callback m (DockingStationDetector.init dsf) w fuel msg).trace =
        [⟨"/base_link",
          ⟨⟨(estimatorOutput m (DockingStationDetector.init dsf) msg).x +
              (transformRead w).origin.x,
            (estimatorOutput m (DockingStationDetector.init dsf) msg).y, 0⟩,
           ⟨0, 0, 0, 1⟩⟩⟩] ↔
      10 ≤ s ∧ serverUpWithin w.server fuel) ∧
    ((laserScan_callback m (DockingStationDetector.init dsf) w fuel msg).trace.filter
        Event.isNavigation = [] ↔ s < 10) ∧
    (s < 10 →
      (laserScan_callback m (DockingStationDetector.init dsf) w fuel msg).finished = true ∧
      goalsSent (laserScan_callback m (DockingStationDetector.init dsf) w fuel msg).trace = []) ∧
    (s = 10 →
      Event.createActionClient "move_base" ∈
        (laserScan_callback m (DockingStationDetector.init dsf) w fuel msg).trace) ∧
    (s = 0 →
      (laserScan_callback m (DockingStationDetector.init dsf) w fuel msg).trace.filter
        Event.isNavigation = []) := by
  have hb := belowThreshold_num_false m dsf msg s hs
  have hb2 := belowThreshold_num m dsf msg s hs
  have hc := (callback_client m (DockingStationDetector.init dsf) w fuel msg).trans hb
  have hg := callback_goals m (DockingStationDetector.init dsf) w fuel msg
  have hn := (callback_navigation m (DockingStationDetector.init dsf) w fuel msg).trans hb2
  have hf := callback_finished m (DockingStationDetector.init dsf) w fuel msg
  refine ⟨hc, ?_, hn, ?_, ?_, ?_⟩
  · rw [hg]
    by_cases hu : belowThreshold m (DockingStationDetector.init dsf) msg = false ∧
        serverUpWithin w.server fuel
    · rw [if_pos hu]
      exact ⟨fun _ => ⟨hb.mp hu.1, hu.2⟩, fun _ => by simp [goalSubmitted]⟩
    · rw [if_neg hu]
      constructor
      · intro h; simp at h
      · intro h; exact absurd ⟨hb.mpr h.1, h.2⟩ hu
  · intro h
    refine ⟨hf.mpr (Or.inl (hb2.mpr h)), ?_⟩
    rw [hg, if_neg]
    exact fun h2 => absurd h (not_lt.mpr (hb.mp h2.1))
  · intro h
    exact hc.mpr (le_of_eq h.symm)
  · intro h
    apply hn.mpr
    rw [h]
    norm_num

/-- C1, at a concrete input: a score of exactly 10 makes the handler build the
action client. -/
theorem acceptance_decision_witness :
    Event.createActionClient "move_base" ∈
      (laserScan_callback (⟨Real.cos, Real.sin⟩ : Libm ℝ)
        (DockingStationDetector.init (constantFinder ⟨1, 2, 0, .num 10⟩))
        (World.ready (Transform.translation ⟨0, 0, 0⟩) GoalState.SUCCEEDED) 1
        (scanAtZero [1])).trace :=
  (acceptance_decision (⟨Real.cos, Real.sin⟩ : Libm ℝ) (constantFinder ⟨1, 2, 0, .num 10⟩)
    (World.ready (Transform.translation ⟨0, 0, 0⟩) GoalState.SUCCEEDED) 1
    (scanAtZero [1]) 10 rfl).2.2.2.2.1 rfl

/-- C1, refuted as stated: when the estimator's score is NaN, `score >= 10` is
false, yet the test `score < 10` is false too and the handler builds the
action client and submits a goal. -/
theorem nan_score_navigates :
    (FloatValue.nan : FloatValue ℝ).ge (.num 10) = false ∧
    Event.createActionClient "move_base" ∈
      (laserScan_callback (⟨Real.cos, Real.sin⟩ : Libm ℝ)
        (DockingStationDetector.init (constantFinder ⟨1, 2, 0, .nan⟩))
        (World.ready (Transform.translation ⟨0, 0, 0⟩) GoalState.SUCCEEDED) 1
        (scanAtZero [1])).trace ∧
    goalsSent (laserScan_callback (⟨Real.cos, Real.sin⟩ : Libm ℝ)
        (DockingStationDetector.init (constantFinder ⟨1, 2, 0, .nan⟩))
        (World.ready (Transform.translation ⟨0, 0, 0⟩) GoalState.SUCCEEDED) 1
        (scanAtZero [1])).trace = [⟨"/base_link", ⟨⟨1, 2, 0⟩, ⟨0, 0, 0, 1⟩⟩⟩] := by
  refine ⟨rfl, ?_, ?_⟩
  · rw [callback_client]
    exact belowThreshold_nan _ (DockingStationDetector.init (constantFinder ⟨1, 2, 0, .nan⟩))
      _ rfl
  · rw [callback_goals, belowThreshold_nan _
      (DockingStationDetector.init (constantFinder ⟨1, 2, 0, .nan⟩)) _ rfl]
    simp [estimatorOutput, constantFinder, DockingStationDetector.init, serverUpWithin,
      World.ready, goalSubmitted, transformRead, Transform.translation]

/-- C9 (for scores that are numbers in its count): one call of the handler
submits at most one goal; when the score is a number `s`, exactly one iff `s`
is at least 10 and the server comes up; every submitted goal is the last but
two action of the call, followed only by one wait of 100 seconds for the
result and one report, which is the success text exactly when the final state
is SUCCEEDED and the failure text otherwise; so no second goal follows. -/
theorem single_goal_no_retry (m : Libm α) (dsf : DockingStationFinder α) (w : World α)
    (fuel : Nat) (msg : LaserScan α) :
    (goalsSent (laserScan_callback m (DockingStationDetector.init dsf) w fuel msg).trace).length
        ≤ 1 ∧
    (∀ s : α, (estimatorOutput m (DockingStationDetector.init dsf) msg).score = .num s →
      ((goalsSent
          (laserScan_callback m (DockingStationDetector.init dsf) w fuel msg).trace).length = 1 ↔
        10 ≤ s ∧ serverUpWithin w.server fuel)) ∧
    (∀ g ∈ goalsSent (laserScan_callback m (DockingStationDetector.init dsf) w fuel msg).trace,
      ∃ before, goalsSent before = [] ∧
        (laserScan_callback m (DockingStationDetector.init dsf) w fuel msg).trace =
          before ++
            [Event.sendGoal g,
             Event.waitForResult 100,
             Event.rosInfo (if w.state = GoalState.SUCCEEDED then
               "Hooray, the base moved to the goal"
               else "The base failed to move to the goal")]) ∧
    (Event.rosInfo "Hooray, the base moved to the goal" ∈
        (laserScan_callback m (DockingStationDetector.init dsf) w fuel msg).trace ↔
      (goalsSent
          (laserScan_callback m (DockingStationDetector.init dsf) w fuel msg).trace).length = 1 ∧
        w.state = GoalState.SUCCEEDED) ∧
    (Event.rosInfo "The base failed to move to the goal" ∈
        (laserScan_callback m (DockingStationDetector.init dsf) w fuel msg).trace ↔
      (goalsSent
          (laserScan_callback m (DockingStationDetector.init dsf) w fuel msg).trace).length = 1 ∧
        w.state ≠ GoalState.SUCCEEDED) := by
  have hg := callback_goals m (DockingStationDetector.init dsf) w fuel msg
  have hh := callback_result m (DockingStationDetector.init dsf) w fuel msg
    "Hooray, the base moved to the goal" (by decide) (by decide)
  have hx := callback_result m (DockingStationDetector.init dsf) w fuel msg
    "The base failed to move to the goal" (by decide) (by decide)
  have hlen : (goalsSent
      (laserScan_callback m (DockingStationDetector.init dsf) w fuel msg).trace).length = 1 ↔
      belowThreshold m (DockingStationDetector.init dsf) msg = false ∧
        serverUpWithin w.server fuel := by
    rw [hg]; split <;> simp_all
  refine ⟨?_, ?_, ?_, ?_, ?_⟩
  · rw [hg]; split <;> simp
  · intro s hs
    rw [hlen, belowThreshold_num_false m dsf msg s hs]
  · intro g hmem
    rw [hg] at hmem
    split at hmem
    · rename_i hc
      simp only [List.mem_singleton] at hmem
      subst hmem
      refine ⟨preamble m (DockingStationDetector.init dsf) w msg ++
        Event.createActionClient "move_base" :: (waitLoop w.server fuel 0).1, ?_, ?_⟩
      · rw [goalsSent_append, preamble_goals, goalsSent_cons, waitLoop_goals]
        simp [goalsSent]
      · rw [callback_eq, if_neg (by simp [hc.1]),
          if_pos ((waitLoop_up (α := α) w.server fuel).mpr hc.2)]
        rfl
    · simp at hmem
  · rw [hh, hlen, ← resultText_hooray]
    constructor <;> rintro ⟨a, b⟩ <;> exact ⟨a, b.symm⟩
  · rw [hx, hlen, ← resultText_failed]
    constructor <;> rintro ⟨a, b⟩ <;> exact ⟨a, b.symm⟩

/-- C9, at a concrete input: with score 10 and the server up exactly one goal
is submitted. -/
theorem single_goal_no_retry_witness :
    (goalsSent (laserScan_callback (⟨Real.cos, Real.sin⟩ : Libm ℝ)
        (DockingStationDetector.init (constantFinder ⟨1, 2, 0, .num 10⟩))
        (World.ready (Transform.translation ⟨0, 0, 0⟩) GoalState.ABORTED) 1
        (scanAtZero [1])).trace).length = 1 :=
  ((single_goal_no_retry (⟨Real.cos, Real.sin⟩ : Libm ℝ) (constantFinder ⟨1, 2, 0, .num 10⟩)
    (World.ready (Transform.translation ⟨0, 0, 0⟩) GoalState.ABORTED) 1
    (scanAtZero [1])).2.1 10 rfl).mpr ⟨le_refl _, ⟨0, by decide, rfl⟩⟩

/-- C9, refuted as stated: with a NaN score, which is not at or above the
threshold, and the server up, the handler submits one goal and logs the
result. -/
theorem nan_score_one_goal :
    (FloatValue.nan : FloatValue ℝ).ge (.num 10) = false ∧
    (goalsSent (laserScan_callback (⟨Real.cos, Real.sin⟩ : Libm ℝ)
        (DockingStationDetector.init (constantFinder ⟨1, 2, 0, .nan⟩))
        (World.ready (Transform.translation ⟨0, 0, 0⟩) GoalState.SUCCEEDED) 1
        (scanAtZero [1])).trace).length = 1 ∧
    Event.rosInfo "Hooray, the base moved to the goal" ∈
      (laserScan_callback (⟨Real.cos, Real.sin⟩ : Libm ℝ)
        (DockingStationDetector.init (constantFinder ⟨1, 2, 0, .nan⟩))
        (World.ready (Transform.translation ⟨0, 0, 0⟩) GoalState.SUCCEEDED) 1
        (scanAtZero [1])).trace := by
  refine ⟨rfl, ?_, ?_⟩
  · rw [callback_goals, belowThreshold_nan _
      (DockingStationDetector.init (constantFinder ⟨1, 2, 0, .nan⟩)) _ rfl]
    simp [serverUpWithin, World.ready]
  · rw [callback_result _ _ _ _ _ _ (by decide) (by decide), belowThreshold_nan _
      (DockingStationDetector.init (constantFinder ⟨1, 2, 0, .nan⟩)) _ rfl]
    simp [serverUpWithin, World.ready, resultText]

/-- C6 (as the code behaves): the frame wait is always made, once, with a
bound of 10 seconds; every `waitForServer` call has a bound of 1 second and
the first is made whenever the score test does not reject; the wait for the
result has a bound of 100 seconds and is made whenever a goal was submitted; a
run simulated for `fuel` server polls contains at most `fuel + 2` waits; but
the handler returns exactly when the test `score < threshold` holds or some
`waitForServer` call is answered positively. -/
theorem waits_bounded_return_conditional (m : Libm α) (self : DockingStationDetector α)
    (w : World α) (msg : LaserScan α) :
    (∀ fuel, ∀ e ∈ (laserScan_callback m self w fuel msg).trace,
      (∀ a b d, e = Event.waitForTransform a b d →
        a = "/base_link" ∧ b = "/base_laser_link" ∧ d = 10) ∧
      (∀ d, e = Event.waitForServer d → d = 1) ∧
      (∀ d, e = Event.waitForResult d → d = 100)) ∧
    (∀ fuel, Event.waitForTransform "/base_link" "/base_laser_link" 10 ∈
      (laserScan_callback m self w fuel msg).trace) ∧
    (∀ fuel, (estimatorOutput m self msg).score.lt self.object_found_threshold_ = false →
      Event.waitForServer 1 ∈ (laserScan_callback m self w (fuel + 1) msg).trace) ∧
    (∀ fuel, goalsSent (laserScan_callback m self w fuel msg).trace ≠ [] →
      Event.waitForResult 100 ∈ (laserScan_callback m self w fuel msg).trace) ∧
    (∀ fuel, ((laserScan_callback m self w fuel msg).trace.filterMap Event.waitBound).length
      ≤ fuel + 2) ∧
    ((∃ fuel, (laserScan_callback m self w fuel msg).finished = true) ↔
      (estimatorOutput m self msg).score.lt self.object_found_threshold_ = true ∨
        ∃ k, w.server k = true) := by
  refine ⟨?_, ?_, ?_, ?_, ?_, ?_⟩
  · intro fuel e he
    exact callback_wait_events m self w fuel msg e he
  · intro fuel
    exact callback_preamble_subset m self w fuel msg _ (preamble_transform_wait m self w msg)
  · intro fuel hb
    exact callback_loop_subset m self w (fuel + 1) msg _ hb (waitLoop_first w.server fuel 0)
  · intro fuel hg
    rw [callback_goals] at hg
    split at hg
    · rename_i hc
      rw [callback_eq, if_neg (by simp [hc.1]),
        if_pos ((waitLoop_up (α := α) w.server fuel).mpr hc.2)]
      simp
    · exact absurd rfl hg
  · intro fuel
    have hl := waitLoop_length (α := α) w.server fuel 0
    rw [callback_eq]
    split
    · rw [preamble_waits]; simp
    · split
      · simp only [List.filterMap_append, preamble_waits, List.filterMap_cons,
          Event.waitBound, List.filterMap_nil, List.length_append, List.length_cons,
          List.length_nil]
        omega
      · simp only [List.filterMap_append, preamble_waits, List.filterMap_cons,
          Event.waitBound, List.length_append, List.length_cons, List.length_nil]
        omega
  · constructor
    · rintro ⟨fuel, hf⟩
      rcases (callback_finished m self w fuel msg).mp hf with h | ⟨k, _, hk⟩
      · exact Or.inl h
      · exact Or.inr ⟨k, hk⟩
    · rintro (h | ⟨k, hk⟩)
      · exact ⟨0, (callback_finished m self w 0 msg).mpr (Or.inl h)⟩
      · exact ⟨k + 1, (callback_finished m self w (k + 1) msg).mpr
          (Or.inr ⟨k, Nat.lt_succ_self k, hk⟩)⟩

/-- C6, at a concrete input: with score 10 the first server poll, bounded by
1 second, is made. -/
theorem waits_bounded_return_conditional_witness :
    Event.waitForServer 1 ∈ (laserScan_callback (⟨Real.cos, Real.sin⟩ : Libm ℝ)
        (DockingStationDetector.init (constantFinder ⟨1, 2, 0, .num 10⟩))
        (World.serverDown (Transform.translation ⟨0, 0, 0⟩)) 1
        (scanAtZero [1])).trace :=
  (waits_bounded_return_conditional (⟨Real.cos, Real.sin⟩ : Libm ℝ)
    (DockingStationDetector.init (constantFinder ⟨1, 2, 0, .num 10⟩))
    (World.serverDown (Transform.translation ⟨0, 0, 0⟩)) (scanAtZero [1])).2.2.1 0
    (by simp [estimatorOutput, constantFinder, DockingStationDetector.init, FloatValue.lt,
      sci_ten])

/-- C6, refuted as stated: with a score of 10 and an action server that never
becomes available, the handler does not return, however long it is run. -/
theorem server_down_never_returns :
    ¬ ∃ fuel, (laserScan_callback (⟨Real.cos, Real.sin⟩ : Libm ℝ)
        (DockingStationDetector.init (constantFinder ⟨1, 2, 0, .num 10⟩))
        (World.serverDown (Transform.translation ⟨0, 0, 0⟩)) fuel
        (scanAtZero [1])).finished = true := by
  rintro ⟨fuel, hf⟩
  rw [callback_finished, belowThreshold_num _ (constantFinder ⟨1, 2, 0, .num 10⟩) _ 10 rfl] at hf
  rcases hf with h | ⟨k, _, hk⟩
  · exact absurd h (lt_irrefl _)
  · simp [World.serverDown] at hk

/-- C7 (as the code behaves): every goal the handler submits is in /base_link
with the identity orientation (0, 0, 0, 1), whatever the estimated heading;
when the score is a number at or above 10 and the server comes up, exactly
that goal is submitted, at the base-frame goal position; estimator outputs that
differ only in heading lead to the same goals. -/
theorem goal_orientation_is_identity (m : Libm α) (dsf : DockingStationFinder α)
    (w : World α) (fuel : Nat) (msg : LaserScan α) :
    (∀ g ∈ goalsSent (laserScan_callback m (DockingStationDetector.init dsf) w fuel msg).trace,
      g.frame_id = "/base_link" ∧ g.pose.orientation = ⟨0, 0, 0, 1⟩) ∧
    (∀ s : α, (estimatorOutput m (DockingStationDetector.init dsf) msg).score = .num s →
      10 ≤ s → serverUpWithin w.server fuel →
      goalsSent (laserScan_callback m (DockingStationDetector.init dsf) w fuel msg).trace =
        [⟨"/base_link",
          ⟨⟨(estimatorOutput m (DockingStationDetector.init dsf) msg).x +
              (transformRead w).origin.x,
            (estimatorOutput m (DockingStationDetector.init dsf) msg).y, 0⟩,
           ⟨0, 0, 0, 1⟩⟩⟩]) ∧
    (∀ dsf2 : DockingStationFinder α,
      (estimatorOutput m (DockingStationDetector.init dsf2) msg).x =
        (estimatorOutput m (DockingStationDetector.init dsf) msg).x →
      (estimatorOutput m (DockingStationDetector.init dsf2) msg).y =
        (estimatorOutput m (DockingStationDetector.init dsf) msg).y →
      (estimatorOutput m (DockingStationDetector.init dsf2) msg).score =
        (estimatorOutput m (DockingStationDetector.init dsf) msg).score →
      goalsSent (laserScan_callback m (DockingStationDetector.init dsf2) w fuel msg).trace =
        goalsSent (laserScan_callback m (DockingStationDetector.init dsf) w fuel msg).trace) := by
  refine ⟨?_, ?_, ?_⟩
  · intro g hg
    rw [callback_goals] at hg
    split at hg
    · simp only [List.mem_singleton] at hg
      subst hg
      simp [goalSubmitted]
    · simp at hg
  · intro s hs h10 hu
    rw [callback_goals, if_pos ⟨(belowThreshold_num_false m dsf msg s hs).mpr h10, hu⟩]
    rfl
  · intro dsf2 hx hy hs
    have hb : belowThreshold m (DockingStationDetector.init dsf2) msg =
        belowThreshold m (DockingStationDetector.init dsf) msg := by
      simp only [belowThreshold, hs, init_threshold]
    rw [callback_goals, callback_goals, hb]
    simp only [goalSubmitted, hx, hy]

/-- C7, at a concrete input: with heading 1 and score 10 the goal submitted is
at (1, 2, 0) with the identity orientation. -/
theorem goal_orientation_is_identity_witness :
    goalsSent (laserScan_callback (⟨Real.cos, Real.sin⟩ : Libm ℝ)
        (DockingStationDetector.init (constantFinder ⟨1, 2, 1, .num 10⟩))
        (World.ready (Transform.translation ⟨0, 0, 0⟩) GoalState.SUCCEEDED) 1
        (scanAtZero [1])).trace = [⟨"/base_link", ⟨⟨1 + 0, 2, 0⟩, ⟨0, 0, 0, 1⟩⟩⟩] :=
  (goal_orientation_is_identity (⟨Real.cos, Real.sin⟩ : Libm ℝ)
    (constantFinder ⟨1, 2, 1, .num 10⟩)
    (World.ready (Transform.translation ⟨0, 0, 0⟩) GoalState.SUCCEEDED) 1
    (scanAtZero [1])).2.1 10 rfl (le_refl _) ⟨0, by decide, rfl⟩

/-- C7, refuted as stated: the estimator outputs (1, 2, 0, 10) and
(1, 2, 1, 10) differ only in heading and lead to the same goal, with the same
orientation. -/
theorem headings_differ_goals_equal :
    goalsSent (laserScan_callback (⟨Real.cos, Real.sin⟩ : Libm ℝ)
        (DockingStationDetector.init (constantFinder ⟨1, 2, 0, .num 10⟩))
        (World.ready (Transform.translation ⟨0, 0, 0⟩) GoalState.SUCCEEDED) 1
        (scanAtZero [1])).trace = [⟨"/base_link", ⟨⟨1, 2, 0⟩, ⟨0, 0, 0, 1⟩⟩⟩] ∧
    goalsSent (laserScan_callback (⟨Real.cos, Real.sin⟩ : Libm ℝ)
        (DockingStationDetector.init (constantFinder ⟨1, 2, 1, .num 10⟩))
        (World.ready (Transform.translation ⟨0, 0, 0⟩) GoalState.SUCCEEDED) 1
        (scanAtZero [1])).trace = [⟨"/base_link", ⟨⟨1, 2, 0⟩, ⟨0, 0, 0, 1⟩⟩⟩] := by
  constructor
  · rw [callback_goals, (belowThreshold_num_false _ (constantFinder ⟨1, 2, 0, .num 10⟩) _ 10
      rfl).mpr (le_refl _)]
    simp [estimatorOutput, constantFinder, DockingStationDetector.init, serverUpWithin,
      World.ready, goalSubmitted, transformRead, Transform.translation]
  · rw [callback_goals, (belowThreshold_num_false _ (constantFinder ⟨1, 2, 1, .num 10⟩) _ 10
      rfl).mpr (le_refl _)]
    simp [estimatorOutput, constantFinder, DockingStationDetector.init, serverUpWithin,
      World.ready, goalSubmitted, transformRead, Transform.translation]

/-- C8 (as the code behaves): for every scan exactly one marker is published,
in /base_link, and its position is the base-frame goal position
(goal_x_base, goal_y_base, 0) moved by the fixed offset (-0.3, -0.238); every
goal submitted lies at that goal position. -/
theorem marker_is_offset_goal (m : Libm α) (self : DockingStationDetector α) (w : World α)
    (fuel : Nat) (msg : LaserScan α) :
    ∃ mk : Marker α,
      markersPublished (laserScan_callback m self w fuel msg).trace = [mk] ∧
      mk.frame_id = "/base_link" ∧
      mk.pose.position =
        ⟨(estimatorOutput m self msg).x + (transformRead w).origin.x - 0.3,
         (estimatorOutput m self msg).y - 0.238, 0⟩ ∧
      (∀ g ∈ goalsSent (laserScan_callback m self w fuel msg).trace,
        g.pose.position =
          ⟨(estimatorOutput m self msg).x + (transformRead w).origin.x,
           (estimatorOutput m self msg).y, 0⟩ ∧
        mk.pose.position = ⟨g.pose.position.x - 0.3, g.pose.position.y - 0.238, 0⟩) := by
  refine ⟨_, callback_markers m self w fuel msg, ?_, ?_, ?_⟩
  · simp [publishMarker]
  · rw [publishMarker_pose]
    simp
    norm_num
  · intro g hg
    rw [callback_goals] at hg
    split at hg
    · simp only [List.mem_singleton] at hg
      subst hg
      rw [publishMarker_pose]
      simp [goalSubmitted]
      norm_num
    · simp at hg

/-- C8, at a concrete input: estimate (1, 2), no translation: the marker is
published at (0.7, 1.762, 0). -/
theorem marker_is_offset_goal_witness :
    ∃ mk : Marker ℝ,
      markersPublished (laserScan_callback (⟨Real.cos, Real.sin⟩ : Libm ℝ)
        (DockingStationDetector.init (constantFinder ⟨1, 2, 1, .num 10⟩))
        (World.ready (Transform.translation ⟨0, 0, 0⟩) GoalState.SUCCEEDED) 1
        (scanAtZero [1])).trace = [mk] ∧
      mk.pose.position = ⟨0.7, 1.762, 0⟩ := by
  obtain ⟨mk, h1, _, h3, _⟩ :=
    marker_is_offset_goal (⟨Real.cos, Real.sin⟩ : Libm ℝ)
      (DockingStationDetector.init (constantFinder ⟨1, 2, 1, .num 10⟩))
      (World.ready (Transform.translation ⟨0, 0, 0⟩) GoalState.SUCCEEDED) 1 (scanAtZero [1])
  refine ⟨mk, h1, ?_⟩
  rw [h3]
  simp [estimatorOutput, constantFinder, DockingStationDetector.init, World.ready,
    transformRead, Transform.translation]
  norm_num

/-- C8, refuted as stated: for the estimator output (1, 2, 1, 10) and a
transform without translation the goal position is (1, 2, 0), but the marker is
published at (0.7, 1.762, 0). -/
theorem marker_differs_from_goal :
    (goalsSent (laserScan_callback (⟨Real.cos, Real.sin⟩ : Libm ℝ)
        (DockingStationDetector.init (constantFinder ⟨1, 2, 1, .num 10⟩))
        (World.ready (Transform.translation ⟨0, 0, 0⟩) GoalState.SUCCEEDED) 1
        (scanAtZero [1])).trace).map (fun g => g.pose.position) = [⟨1, 2, 0⟩] ∧
    (markersPublished (laserScan_callback (⟨Real.cos, Real.sin⟩ : Libm ℝ)
        (DockingStationDetector.init (constantFinder ⟨1, 2, 1, .num 10⟩))
        (World.ready (Transform.translation ⟨0, 0, 0⟩) GoalState.SUCCEEDED) 1
        (scanAtZero [1])).trace).map (fun mk => mk.pose.position) =
      [⟨0.7, 1.762, 0⟩] ∧
    (⟨0.7, 1.762, 0⟩ : Vector3 ℝ) ≠ ⟨1, 2, 0⟩ := by
  refine ⟨?_, ?_, ?_⟩
  · rw [callback_goals, (belowThreshold_num_false _ (constantFinder ⟨1, 2, 1, .num 10⟩) _ 10
      rfl).mpr (le_refl _)]
    simp [estimatorOutput, constantFinder, DockingStationDetector.init, serverUpWithin,
      World.ready, goalSubmitted, transformRead, Transform.translation]
  · rw [callback_markers]
    simp [publishMarker_pose, estimatorOutput, constantFinder, DockingStationDetector.init,
      World.ready, transformRead, Transform.translation]
    norm_num
  · intro h
    injection h with hx _ _
    norm_num at hx

/-- C5: the arrays handed to the estimator both have as many entries as the
scan has range samples; entry `i` of `x_scan` is `r_i * cos (a + d * i)` and
entry `i` of `y_scan` is `r_i * sin (a + d * i)`, in input order; hence the
squares of the two entries add up to the square of `r_i`. -/
theorem polar_to_cartesian (self : DockingStationDetector ℝ) (w : World ℝ) (fuel : Nat)
    (msg : LaserScan ℝ) :
    ∃ x_scan y_scan : List ℝ,
      estimatorCalls (laserScan_callback ⟨Real.cos, Real.sin⟩ self w fuel msg).trace =
        [(x_scan, y_scan)] ∧
      x_scan.length = msg.ranges.length ∧ y_scan.length = msg.ranges.length ∧
      (∀ i : Nat, x_scan[i]? = msg.ranges[i]?.map
        (fun r => r * Real.cos (msg.angle_min + msg.angle_increment * (i : ℝ)))) ∧
      (∀ i : Nat, y_scan[i]? = msg.ranges[i]?.map
        (fun r => r * Real.sin (msg.angle_min + msg.angle_increment * (i : ℝ)))) ∧
      (∀ (i : Nat) (x y r : ℝ), x_scan[i]? = some x → y_scan[i]? = some y →
        msg.ranges[i]? = some r → x ^ 2 + y ^ 2 = r ^ 2) := by
  refine ⟨(scanToCartesian ⟨Real.cos, Real.sin⟩ msg).1,
    (scanToCartesian ⟨Real.cos, Real.sin⟩ msg).2, ?_, ?_, ?_, ?_, ?_, ?_⟩
  · exact callback_calls _ self w fuel msg
  · exact scan_length_fst _ msg
  · exact scan_length_snd _ msg
  · exact fun i => scan_get_fst _ msg i
  · exact fun i => scan_get_snd _ msg i
  · intro i x y r hx hy hr
    rw [scan_get_fst, hr] at hx
    rw [scan_get_snd, hr] at hy
    simp only [Option.map_some', Option.some.injEq] at hx hy
    rw [← hx, ← hy]
    have := Real.cos_sq_add_sin_sq (msg.angle_min + msg.angle_increment * (i : ℝ))
    linear_combination r ^ 2 * this

/-- C5, at a concrete input: a single sample of range 2 at angle 0 becomes the
point (2, 0). -/
theorem polar_to_cartesian_witness :
    ∃ x_scan y_scan : List ℝ,
      estimatorCalls (laserScan_callback ⟨Real.cos, Real.sin⟩
        (DockingStationDetector.init (constantFinder ⟨1, 2, 0, .num 0⟩))
        (World.ready (Transform.translation ⟨0, 0, 0⟩) GoalState.SUCCEEDED) 1
        (scanAtZero [2])).trace = [(x_scan, y_scan)] ∧
      x_scan[0]? = some 2 ∧ y_scan[0]? = some 0 := by
  obtain ⟨xs, ys, hc, _, _, hx, hy, _⟩ :=
    polar_to_cartesian (DockingStationDetector.init (constantFinder ⟨1, 2, 0, .num 0⟩))
      (World.ready (Transform.translation ⟨0, 0, 0⟩) GoalState.SUCCEEDED) 1 (scanAtZero [2])
  refine ⟨xs, ys, hc, ?_, ?_⟩
  · rw [hx 0]; simp [scanAtZero]
  · rw [hy 0]; simp [scanAtZero]

/-- C2, evaluated at two failing inputs.  With a laser mounted 1 m to the left
of the base origin (identity rotation, translation (0, 1, 0)) and the station
estimated at the laser origin, the submitted goal is (0, 0, 0) although the
point lies at (0, 1, 0) in the base frame.  With a laser turned by a quarter
turn and the station estimated at (1, 0), the submitted goal is (1, 0, 0)
although the point lies at (0, 1, 0) in the base frame. -/
theorem goal_ignores_offset_and_rotation :
    ((goalsSent (laserScan_callback (⟨Real.cos, Real.sin⟩ : Libm ℝ)
        (DockingStationDetector.init (constantFinder ⟨0, 0, 0, .num 10⟩))
        (World.ready (Transform.translation ⟨0, 1, 0⟩) GoalState.SUCCEEDED) 1
        (scanAtZero [1])).trace).map (fun g => g.pose.position) = [⟨0, 0, 0⟩] ∧
      (Transform.translation (⟨0, 1, 0⟩ : Vector3 ℝ)).apply ⟨0, 0, 0⟩ = ⟨0, 1, 0⟩) ∧
    ((goalsSent (laserScan_callback (⟨Real.cos, Real.sin⟩ : Libm ℝ)
        (DockingStationDetector.init (constantFinder ⟨1, 0, 0, .num 10⟩))
        (World.ready Transform.quarterTurn GoalState.SUCCEEDED) 1
        (scanAtZero [1])).trace).map (fun g => g.pose.position) = [⟨1, 0, 0⟩] ∧
      (Transform.quarterTurn : Transform ℝ).apply ⟨1, 0, 0⟩ = ⟨0, 1, 0⟩) := by
  refine ⟨⟨?_, ?_⟩, ?_, ?_⟩
  · rw [callback_goals, belowThreshold_constant]
    simp [FloatValue.lt, estimatorOutput, constantFinder, DockingStationDetector.init, serverUpWithin,
      World.ready, goalSubmitted, transformRead, Transform.translation]
  · simp [Transform.apply, Transform.translation, Vector3.dot]
  · rw [callback_goals, belowThreshold_constant]
    simp [FloatValue.lt, estimatorOutput, constantFinder, DockingStationDetector.init, serverUpWithin,
      World.ready, goalSubmitted, transformRead, Transform.quarterTurn]
  · simp [Transform.apply, Transform.quarterTurn, Vector3.dot]

/-- C3, evaluated at a failing input.  The lookup throws, the untouched
transform object happens to hold the translation (7, 0, 0), the score is 10:
the handler logs the error and still submits a goal, at (1 + 7, 2, 0). -/
theorem goal_sent_after_failed_lookup :
    errorsLogged (laserScan_callback (⟨Real.cos, Real.sin⟩ : Libm ℝ)
        (DockingStationDetector.init (constantFinder ⟨1, 2, 0, .num 10⟩))
        (World.lookupFails "lookup timed out" (Transform.translation ⟨7, 0, 0⟩)
          GoalState.SUCCEEDED) 1
        (scanAtZero [1])).trace = ["lookup timed out"] ∧
    goalsSent (laserScan_callback (⟨Real.cos, Real.sin⟩ : Libm ℝ)
        (DockingStationDetector.init (constantFinder ⟨1, 2, 0, .num 10⟩))
        (World.lookupFails "lookup timed out" (Transform.translation ⟨7, 0, 0⟩)
          GoalState.SUCCEEDED) 1
        (scanAtZero [1])).trace = [⟨"/base_link", ⟨⟨8, 2, 0⟩, ⟨0, 0, 0, 1⟩⟩⟩] := by
  constructor
  · rw [callback_eq, belowThreshold_constant]
    simp [FloatValue.lt, estimatorOutput, constantFinder, DockingStationDetector.init, World.lookupFails,
      waitLoop, preamble, errorsLogged]
  · rw [callback_goals, belowThreshold_constant]
    simp [FloatValue.lt, estimatorOutput, constantFinder, DockingStationDetector.init, serverUpWithin,
      World.lookupFails, goalSubmitted, transformRead, Transform.translation]
    norm_num

/-- C10: when the lookup yields a transform with origin (ox, oy, oz), every
goal submitted is at (x + ox, y, 0), the marker is published once, at
(x + ox - 0.3, y - 0.476 / 2, 0) with the identity orientation whatever the
angle, and the goal position exceeds the marker position by (0.3, 0.238). -/
theorem marker_offsets_do_not_leak (m : Libm α) (self : DockingStationDetector α)
    (w : World α) (fuel : Nat) (msg : LaserScan α) (T : Transform α)
    (hT : w.lookup = .ok T) :
    ∃ mk : Marker α,
      markersPublished (laserScan_callback m self w fuel msg).trace = [mk] ∧
      mk.pose.position =
        ⟨(estimatorOutput m self msg).x + T.origin.x - 0.3,
         (estimatorOutput m self msg).y - 0.476 / 2, 0⟩ ∧
      mk.pose.orientation = ⟨0, 0, 0, 1⟩ ∧
      (∀ g ∈ goalsSent (laserScan_callback m self w fuel msg).trace,
        g.pose.position =
          ⟨(estimatorOutput m self msg).x + T.origin.x, (estimatorOutput m self msg).y, 0⟩ ∧
        g.pose.position.x - mk.pose.position.x = 0.3 ∧
        g.pose.position.y - mk.pose.position.y = 0.238) ∧
      ((estimatorOutput m self msg).score.lt self.object_found_threshold_ = false →
        serverUpWithin w.server fuel →
        (goalsSent (laserScan_callback m self w fuel msg).trace).length = 1) := by
  refine ⟨_, callback_markers m self w fuel msg, ?_, ?_, ?_, ?_⟩
  · rw [publishMarker_pose, transformRead_ok w T hT]
  · rw [publishMarker_pose]
  · intro g hg
    rw [callback_goals] at hg
    split at hg
    · simp only [List.mem_singleton] at hg
      subst hg
      rw [publishMarker_pose, transformRead_ok w T hT]
      simp only [goalSubmitted, transformRead_ok w T hT]
      refine ⟨trivial, ?_, ?_⟩ <;> norm_num
    · simp at hg
  · intro hs hu
    rw [callback_goals, if_pos ⟨hs, hu⟩]
    rfl

/-- C10, at a concrete input: estimate (1, 2), transform origin (0.5, 4, 9):
the marker goes to (1.2, 1.762, 0). -/
theorem marker_offsets_do_not_leak_witness :
    ∃ mk : Marker ℝ,
      markersPublished (laserScan_callback (⟨Real.cos, Real.sin⟩ : Libm ℝ)
        (DockingStationDetector.init (constantFinder ⟨1, 2, 1, .num 10⟩))
        (World.ready (Transform.translation ⟨0.5, 4, 9⟩) GoalState.SUCCEEDED) 1
        (scanAtZero [1])).trace = [mk] ∧
      mk.pose.position = ⟨1.2, 1.762, 0⟩ := by
  obtain ⟨mk, h1, h2, _⟩ :=
    marker_offsets_do_not_leak (⟨Real.cos, Real.sin⟩ : Libm ℝ)
      (DockingStationDetector.init (constantFinder ⟨1, 2, 1, .num 10⟩))
      (World.ready (Transform.translation ⟨0.5, 4, 9⟩) GoalState.SUCCEEDED) 1
      (scanAtZero [1]) (Transform.translation ⟨0.5, 4, 9⟩) rfl
  refine ⟨mk, h1, ?_⟩
  rw [h2]
  simp [FloatValue.lt, estimatorOutput, constantFinder, DockingStationDetector.init, Transform.translation]
  norm_num

end Claims

end DockingStation
